import Mathlib

/-!
Verification of the TidalPlaylist cog (src/tidalplaylist/tidalplaylist.py).

The development shallowly embeds the cog's control flow:

* `classify` / `extractId` / `dispatchRef` — the URL classification and
  identifier extraction done in `tidal`, `queue_playlist`, `queue_album`,
  `queue_track` (the `"playlist/" in url` chain and the `re.search`
  patterns `playlist/([A-Za-z0-9\-]+)`, `album/([0-9]+)`, `track/([0-9]+)`).
* `queueLoop` — the per-track loops of `queue_playlist` and `queue_album`.
  Each track's `add_track` call is abstracted by a `SubmitOutcome`
  (returned True, returned False, or raised); the verbose progress edit
  (playlist loop only, at indices divisible by 10) may itself raise,
  which the loop's inner `except` also catches — this is modelled by the
  `editFault` function.
* `load_session`, `tidalsetup` — the session loading and OAuth setup flows,
  with the persisted config record modelled by `Store` and external
  outcomes (OAuth resolution time, login check) passed as parameters.
* `tidal` — the command's guard chain (tidalapi availability, session
  login, Audio cog, voice channel) followed by classification.
* `queue_track` — the single-track path and its user-facing messages.

Strings are modelled as `List Char`; Python's substring test (`in`) is
`substrIn` and `re.search` for the three patterns above is `extractId`.
-/

set_option autoImplicit false
set_option linter.unnecessarySeqFocus false

namespace TidalPlaylist

/-- Python `needle` being a prefix of `hay` (character lists). -/
def leadsWith : List Char → List Char → Bool
  | [], _ => true
  | _ :: _, [] => false
  | a :: as, b :: bs => a == b && leadsWith as bs

/-- Python's `needle in hay` substring test on character lists. -/
def substrIn (needle : List Char) : List Char → Bool
  | [] => leadsWith needle []
  | b :: bs => leadsWith needle (b :: bs) || substrIn needle bs

/-- The three substring markers tested by the `tidal` command. -/
def playlistMarker : List Char := "playlist/".toList

def albumMarker : List Char := "album/".toList

def trackMarker : List Char := "track/".toList

/-- Link kinds distinguished by the `tidal` command. -/
inductive LinkKind
  | playlist
  | album
  | track
deriving DecidableEq, Repr

/-- The `if "playlist/" in url / elif "album/" in url / elif "track/" in url`
chain of the `tidal` command (lines 158-165). -/
def classify (url : List Char) : Option LinkKind :=
  if substrIn playlistMarker url then some .playlist
  else if substrIn albumMarker url then some .album
  else if substrIn trackMarker url then some .track
  else none

/-- Characters accepted by the playlist id pattern `[A-Za-z0-9\-]`. -/
def playlistIdChar (c : Char) : Bool :=
  c.isAlpha || c.isDigit || c == '-'

/-- `re.search(marker + "(" + cls + "+)", url)`: scan for the first
position where `marker` occurs followed by at least one character of the
class, and return the maximal (greedy) run of class characters after it. -/
def extractId (marker : List Char) (good : Char → Bool) : List Char → Option (List Char)
  | [] => none
  | c :: rest =>
    if leadsWith marker (c :: rest) then
      match ((c :: rest).drop marker.length).takeWhile good with
      | [] => extractId marker good rest
      | d :: ds => some (d :: ds)
    else extractId marker good rest

/-- User-visible chat messages sent by the cog (identified symbolically). -/
inductive Msg
  | noApi
  | notAuthenticated
  | noAudio
  | notInVoice
  | invalidUrl
  | invalidPlaylistUrl
  | invalidAlbumUrl
  | invalidTrackUrl
  | errorMsg
  | oauthTimedOut
  | setupComplete
  | loginFailed
  | successTrack (nm ar : List Char)
  | failedTrack (nm : List Char)
  | notOwner
  | directStatus (b : Bool)
  | directSet (b : Bool)
deriving DecidableEq

/-- Classification plus identifier extraction: the first step of
`queue_playlist` / `queue_album` / `queue_track` after the `tidal`
dispatch; a failed `re.search` sends the corresponding invalid-URL
message and returns. -/
def dispatchRef (url : List Char) : Except Msg (LinkKind × List Char) :=
  match classify url with
  | none => .error .invalidUrl
  | some .playlist =>
    match extractId playlistMarker playlistIdChar url with
    | none => .error .invalidPlaylistUrl
    | some i => .ok (.playlist, i)
  | some .album =>
    match extractId albumMarker Char.isDigit url with
    | none => .error .invalidAlbumUrl
    | some i => .ok (.album, i)
  | some .track =>
    match extractId trackMarker Char.isDigit url with
    | none => .error .invalidTrackUrl
    | some i => .ok (.track, i)

/-! ## The batch-queue loops of `queue_playlist` and `queue_album`. -/

/-- Outcome of one `add_track` call used as the loop's submit operation:
it returned True, returned False, or raised an exception. -/
inductive SubmitOutcome
  | ok
  | retFalse
  | raised
deriving DecidableEq, Repr

/-- Loop state: the `queued` and `failed` counters, the number of
progress-edit messages actually emitted, and the 1-based indices of the
tracks for which `add_track` was invoked, in invocation order. -/
structure QueueState where
  queued : Nat
  failed : Nat
  progress : Nat
  submitted : List Nat
deriving DecidableEq, Repr

def initState : QueueState := ⟨0, 0, 0, []⟩

/-- The guard of the in-loop progress edit: only the playlist loop has
one (`hasProg`), and it fires when not quiet and `i % 10 == 0`. -/
def progressCond (hasProg quiet : Bool) (i : Nat) : Bool :=
  hasProg && !quiet && (i % 10 == 0)

/-- What happens after `add_track` returned (did not raise): the progress
edit runs if its guard holds; if the edit itself raises, the loop's
`except` catches it and increments `failed`, otherwise the progress
message is emitted. -/
def afterSubmit (hasProg quiet : Bool) (editFault : Nat → Bool) (i : Nat)
    (s : QueueState) : QueueState :=
  if progressCond hasProg quiet i then
    if editFault i then { s with failed := s.failed + 1 }
    else { s with progress := s.progress + 1 }
  else s

/-- One iteration of the `for i, track in enumerate(tracks, 1)` body:
record the `add_track` invocation; on a raise increment `failed` and skip
the edit; on True/False increment `queued`/`failed` and then run the
progress edit. -/
def stepTrack (hasProg quiet : Bool) (editFault : Nat → Bool) (i : Nat)
    (o : SubmitOutcome) (s : QueueState) : QueueState :=
  let s1 : QueueState := { s with submitted := s.submitted ++ [i] }
  match o with
  | .raised => { s1 with failed := s1.failed + 1 }
  | .ok => afterSubmit hasProg quiet editFault i { s1 with queued := s1.queued + 1 }
  | .retFalse => afterSubmit hasProg quiet editFault i { s1 with failed := s1.failed + 1 }

/-- The whole loop, starting at index `i` with state `s`. -/
def queueLoop (hasProg quiet : Bool) (editFault : Nat → Bool) :
    Nat → List SubmitOutcome → QueueState → QueueState
  | _, [], s => s
  | i, o :: os, s =>
    queueLoop hasProg quiet editFault (i + 1) os
      (stepTrack hasProg quiet editFault i o s)

/-- The `queue_playlist` loop (lines 195-211): progress edits present. -/
def queue_playlist_loop (quiet : Bool) (editFault : Nat → Bool)
    (os : List SubmitOutcome) : QueueState :=
  queueLoop true quiet editFault 1 os initState

/-- The `queue_album` loop (lines 253-264): no in-loop progress edit. -/
def queue_album_loop (quiet : Bool) (editFault : Nat → Bool)
    (os : List SubmitOutcome) : QueueState :=
  queueLoop false quiet editFault 1 os initState

/-- Number of submissions that returned True. -/
def countOk : List SubmitOutcome → Nat
  | [] => 0
  | .ok :: os => countOk os + 1
  | .retFalse :: os => countOk os
  | .raised :: os => countOk os

/-- Number of submissions that failed (returned False or raised). -/
def countBad : List SubmitOutcome → Nat
  | [] => 0
  | .ok :: os => countBad os
  | .retFalse :: os => countBad os + 1
  | .raised :: os => countBad os + 1

/-- Number of iterations at which the progress edit raises (it is only
reached when the submission did not raise and its guard holds). -/
def editFaults (hasProg quiet : Bool) (editFault : Nat → Bool) :
    Nat → List SubmitOutcome → Nat
  | _, [] => 0
  | i, .raised :: os => editFaults hasProg quiet editFault (i + 1) os
  | i, .ok :: os =>
    (if progressCond hasProg quiet i && editFault i then 1 else 0)
      + editFaults hasProg quiet editFault (i + 1) os
  | i, .retFalse :: os =>
    (if progressCond hasProg quiet i && editFault i then 1 else 0)
      + editFaults hasProg quiet editFault (i + 1) os

/-- Number of progress messages actually emitted. -/
def progressEmits (hasProg quiet : Bool) (editFault : Nat → Bool) :
    Nat → List SubmitOutcome → Nat
  | _, [] => 0
  | i, .raised :: os => progressEmits hasProg quiet editFault (i + 1) os
  | i, .ok :: os =>
    (if progressCond hasProg quiet i && !editFault i then 1 else 0)
      + progressEmits hasProg quiet editFault (i + 1) os
  | i, .retFalse :: os =>
    (if progressCond hasProg quiet i && !editFault i then 1 else 0)
      + progressEmits hasProg quiet editFault (i + 1) os

/-- `[i, i+1, ..., i+n-1]`: the indices of the `n` iterations from `i`. -/
def idxList : Nat → Nat → List Nat
  | _, 0 => []
  | i, n + 1 => i :: idxList (i + 1) n

/-! ## Persisted state, session loading and OAuth setup. -/

/-- The persisted global config record registered in `__init__`:
`token_type`, `access_token`, `refresh_token`, `expiry_time` (all `None`
by default) and the `quiet_mode` flag. -/
structure Store where
  token_type : Option (List Char)
  access_token : Option (List Char)
  refresh_token : Option (List Char)
  expiry_time : Option Nat
  quiet_mode : Bool
deriving DecidableEq, Repr

/-- Python truthiness of an optional string (`None` and `""` are falsy). -/
def pyTruthyStr : Option (List Char) → Bool
  | none => false
  | some [] => false
  | some (_ :: _) => true

/-- Network calls the session object can make during loading. -/
inductive NetCall
  | loadOauthSession
  | checkLoginCall
deriving DecidableEq, Repr

/-- Resulting session status after `load_session`. -/
inductive SessState
  | authenticated
  | expired
  | unauthenticated
deriving DecidableEq, Repr

/-- `load_session` (lines 43-68): load the stored credentials; only when
`token_type and access_token and refresh_token` are all truthy does it
call `load_oauth_session` and then `check_login`; otherwise it just logs
and the session stays unauthenticated. `checkOk` is the external result
of `check_login`. Returns the network calls made, in order, and the
session status. -/
def load_session (c : Store) (checkOk : Bool) : List NetCall × SessState :=
  if pyTruthyStr c.token_type && pyTruthyStr c.access_token
      && pyTruthyStr c.refresh_token then
    ([.loadOauthSession, .checkLoginCall],
     if checkOk then .authenticated else .expired)
  else ([], .unauthenticated)

/-- The `timeout=300` argument of `asyncio.wait_for` in `tidalsetup`. -/
def oauthTimeoutSeconds : Nat := 300

/-- Credentials held by the tidalapi session after a successful OAuth
login, written back to the config by `tidalsetup`. -/
structure SessionCreds where
  token_type : List Char
  access_token : List Char
  refresh_token : List Char
  expiry_time : Option Nat
deriving DecidableEq, Repr

/-- The config writes performed on the `check_login()` success branch of
`tidalsetup` (lines 105-113): the three tokens are always written, the
expiry time only when the session has one. -/
def writeCreds (sc : SessionCreds) (st : Store) : Store :=
  { st with
    token_type := some sc.token_type
    access_token := some sc.access_token
    refresh_token := some sc.refresh_token
    expiry_time :=
      match sc.expiry_time with
      | some e => some e
      | none => st.expiry_time }

/-- `tidalsetup` (lines 70-122) as a function of the external outcomes:
whether tidalapi is importable, whether `login_oauth()` (or the embed
send) raises, when the OAuth future resolves (`none` = never), whether
`check_login()` then succeeds, and the session credentials. Returns the
final persisted store and the final message. The `asyncio.wait_for`
call times out whenever the future does not resolve within
`oauthTimeoutSeconds`, and the `except asyncio.TimeoutError` branch
returns before any config write. -/
def tidalsetup (api startFails : Bool) (resolveTime : Option Nat)
    (loginOk : Bool) (sc : SessionCreds) (st : Store) : Store × Msg :=
  if !api then (st, .noApi)
  else if startFails then (st, .errorMsg)
  else
    match resolveTime with
    | none => (st, .oauthTimedOut)
    | some t =>
      if oauthTimeoutSeconds < t then (st, .oauthTimedOut)
      else if loginOk then (writeCreds sc st, .setupComplete)
      else (st, .loginFailed)

/-! ## The `tidal` command's guard chain and dispatch. -/

/-- What the `tidal` command does with a request: refuse with a message,
or hand the URL to one of the three queue paths. -/
inductive Action
  | refuse (m : Msg)
  | dispatchPlaylist (url : List Char)
  | dispatchAlbum (url : List Char)
  | dispatchTrack (url : List Char)
deriving DecidableEq

/-- The `tidal` command (lines 137-165): guards in source order —
tidalapi availability, `self.session` non-None and `check_login()`,
the Audio cog, the invoker's voice state — then the marker chain. -/
def tidal (api sessionSome login audio voice : Bool) (url : List Char) : Action :=
  if !api then .refuse .noApi
  else if !(sessionSome && login) then .refuse .notAuthenticated
  else if !audio then .refuse .noAudio
  else if !voice then .refuse .notInVoice
  else
    match classify url with
    | some .playlist => .dispatchPlaylist url
    | some .album => .dispatchAlbum url
    | some .track => .dispatchTrack url
    | none => .refuse .invalidUrl

/-! ## The single-track path `queue_track`. -/

/-- Track metadata used by the messages (`track.name`, `track.artist.name`). -/
structure Track where
  name : List Char
  artistName : List Char
deriving DecidableEq, Repr

/-- Outcome of the executor call `self.session.track(track_id)`. -/
inductive ResolveOutcome
  | got (t : Track)
  | raised
deriving DecidableEq, Repr

/-- `queue_track` (lines 276-300): extract the id with
`track/([0-9]+)` (failure sends the invalid-track message and returns),
resolve the track (a raise is caught and reported as an error), call
`add_track` and report: success sends the per-track success message only
when not quiet; failure sends the per-track failure message
unconditionally. Returns the messages sent, in order. -/
def queue_track (quiet : Bool) (url : List Char) (res : ResolveOutcome)
    (submitOk : Bool) : List Msg :=
  match extractId trackMarker Char.isDigit url with
  | none => [.invalidTrackUrl]
  | some _ =>
    match res with
    | .raised => [.errorMsg]
    | .got t =>
      if submitOk then
        if quiet then [] else [.successTrack t.name t.artistName]
      else [.failedTrack t.name]

/-! ## Direct-streaming mode (absent from src; modelled from the spec). -/

/-- Modelled from the spec: the revision under src has no `tidaldirect`
command and no `useDirectStreaming` flag (its config registers only the
token fields and `quiet_mode`). Sections 4.4 and 6 of the spec describe a
persisted boolean `useDirectStreaming` toggled by the owner-only
`tidaldirect [true|false]` command. -/
structure DirectState where
  useDirectStreaming : Bool
deriving DecidableEq, Repr

/-- Modelled from the spec: the owner-only `tidaldirect` command — a
non-owner invocation is refused; with no argument it reports the current
flag; with an argument it persists the new flag value. -/
def tidaldirect (isOwner : Bool) (st : DirectState) (arg : Option Bool) :
    DirectState × Msg :=
  if !isOwner then (st, .notOwner)
  else
    match arg with
    | none => (st, .directStatus st.useDirectStreaming)
    | some b => (⟨b⟩, .directSet b)

/-- Where a dispatch is sent under the direct-streaming flag. -/
inductive PlayDispatch
  | directUrl (url : List Char)
  | batchPipeline (a : Action)
deriving DecidableEq

/-- Modelled from the spec (section 4.4): when `useDirectStreaming` is
set, the adapter forwards the original source URL unchanged to the
playback subsystem, bypassing authentication, catalog resolution and
per-track batching; otherwise the normal `tidal` pipeline runs. -/
def dispatchPlay (ds : DirectState) (api sessionSome login audio voice : Bool)
    (url : List Char) : PlayDispatch :=
  if ds.useDirectStreaming then .directUrl url
  else .batchPipeline (tidal api sessionSome login audio voice url)

/-! ## Helper lemmas about the batch loop. -/

theorem afterSubmit_queued (hp q : Bool) (ef : Nat → Bool) (i : Nat) (s : QueueState) :
    (afterSubmit hp q ef i s).queued = s.queued := by
  cases hc : progressCond hp q i <;> cases he : ef i <;> simp [afterSubmit, hc, he]

theorem afterSubmit_submitted (hp q : Bool) (ef : Nat → Bool) (i : Nat) (s : QueueState) :
    (afterSubmit hp q ef i s).submitted = s.submitted := by
  cases hc : progressCond hp q i <;> cases he : ef i <;> simp [afterSubmit, hc, he]

theorem afterSubmit_failed (hp q : Bool) (ef : Nat → Bool) (i : Nat) (s : QueueState) :
    (afterSubmit hp q ef i s).failed
      = s.failed + (if progressCond hp q i && ef i then 1 else 0) := by
  cases hc : progressCond hp q i <;> cases he : ef i <;> simp [afterSubmit, hc, he]

theorem afterSubmit_progress (hp q : Bool) (ef : Nat → Bool) (i : Nat) (s : QueueState) :
    (afterSubmit hp q ef i s).progress
      = s.progress + (if progressCond hp q i && !ef i then 1 else 0) := by
  cases hc : progressCond hp q i <;> cases he : ef i <;> simp [afterSubmit, hc, he]

theorem stepTrack_queued (hp q : Bool) (ef : Nat → Bool) (i : Nat)
    (o : SubmitOutcome) (s : QueueState) :
    (stepTrack hp q ef i o s).queued = s.queued + countOk [o] := by
  cases o <;> simp [stepTrack, afterSubmit_queued, countOk]

theorem stepTrack_submitted (hp q : Bool) (ef : Nat → Bool) (i : Nat)
    (o : SubmitOutcome) (s : QueueState) :
    (stepTrack hp q ef i o s).submitted = s.submitted ++ [i] := by
  cases o <;> simp [stepTrack, afterSubmit_submitted]

theorem stepTrack_failed (hp q : Bool) (ef : Nat → Bool) (i : Nat)
    (o : SubmitOutcome) (s : QueueState) :
    (stepTrack hp q ef i o s).failed
      = s.failed + countBad [o] + editFaults hp q ef i [o] := by
  cases o <;> simp [stepTrack, afterSubmit_failed, countBad, editFaults]

theorem stepTrack_progress (hp q : Bool) (ef : Nat → Bool) (i : Nat)
    (o : SubmitOutcome) (s : QueueState) :
    (stepTrack hp q ef i o s).progress
      = s.progress + progressEmits hp q ef i [o] := by
  cases o <;> simp [stepTrack, afterSubmit_progress, progressEmits]

theorem queueLoop_queued (hp q : Bool) (ef : Nat → Bool) (os : List SubmitOutcome) :
    ∀ (i : Nat) (s : QueueState),
    (queueLoop hp q ef i os s).queued = s.queued + countOk os := by
  induction os with
  | nil => intro i s; simp [queueLoop, countOk]
  | cons o os ih =>
    intro i s
    simp only [queueLoop]
    rw [ih, stepTrack_queued]
    cases o <;> simp [countOk] <;> try omega

theorem queueLoop_submitted (hp q : Bool) (ef : Nat → Bool) (os : List SubmitOutcome) :
    ∀ (i : Nat) (s : QueueState),
    (queueLoop hp q ef i os s).submitted = s.submitted ++ idxList i os.length := by
  induction os with
  | nil => intro i s; simp [queueLoop, idxList]
  | cons o os ih =>
    intro i s
    simp only [queueLoop]
    rw [ih, stepTrack_submitted]
    simp [idxList, List.append_assoc]

theorem queueLoop_failed (hp q : Bool) (ef : Nat → Bool) (os : List SubmitOutcome) :
    ∀ (i : Nat) (s : QueueState),
    (queueLoop hp q ef i os s).failed
      = s.failed + countBad os + editFaults hp q ef i os := by
  induction os with
  | nil => intro i s; simp [queueLoop, countBad, editFaults]
  | cons o os ih =>
    intro i s
    simp only [queueLoop]
    rw [ih, stepTrack_failed]
    cases o <;> simp [countBad, editFaults] <;> omega

theorem queueLoop_progress (hp q : Bool) (ef : Nat → Bool) (os : List SubmitOutcome) :
    ∀ (i : Nat) (s : QueueState),
    (queueLoop hp q ef i os s).progress
      = s.progress + progressEmits hp q ef i os := by
  induction os with
  | nil => intro i s; simp [queueLoop, progressEmits]
  | cons o os ih =>
    intro i s
    simp only [queueLoop]
    rw [ih, stepTrack_progress]
    cases o <;> simp [progressEmits] <;> omega

theorem countOk_countBad (os : List SubmitOutcome) :
    countOk os + countBad os = os.length := by
  induction os with
  | nil => simp [countOk, countBad]
  | cons o os ih => cases o <;> simp [countOk, countBad] <;> omega

theorem editFaults_constFalse (hp q : Bool) (os : List SubmitOutcome) :
    ∀ i, editFaults hp q (fun _ => false) i os = 0 := by
  induction os with
  | nil => intro i; simp [editFaults]
  | cons o os ih => intro i; cases o <;> simp [editFaults, ih]

theorem progressEmits_quiet (hp : Bool) (ef : Nat → Bool) (os : List SubmitOutcome) :
    ∀ i, progressEmits hp true ef i os = 0 := by
  induction os with
  | nil => intro i; simp [progressEmits]
  | cons o os ih => intro i; cases o <;> simp [progressEmits, progressCond, ih]

theorem progressEmits_noProg (q : Bool) (ef : Nat → Bool) (os : List SubmitOutcome) :
    ∀ i, progressEmits false q ef i os = 0 := by
  induction os with
  | nil => intro i; simp [progressEmits]
  | cons o os ih => intro i; cases o <;> simp [progressEmits, progressCond, ih]

theorem progressEmits_le (hp q : Bool) (ef : Nat → Bool) (os : List SubmitOutcome) :
    ∀ i, progressEmits hp q ef i os ≤ os.length := by
  induction os with
  | nil => intro i; simp [progressEmits]
  | cons o os ih =>
    intro i
    have h1 := ih (i + 1)
    cases o with
    | raised => simp only [progressEmits, List.length_cons]; omega
    | ok =>
      simp only [progressEmits, List.length_cons]
      split_ifs <;> omega
    | retFalse =>
      simp only [progressEmits, List.length_cons]
      split_ifs <;> omega

/-! ## Claim theorems. -/

/-- C1: queueing a collection of N tracks invokes the submit operation
(`add_track`) exactly N times, once per track in the collection's
original order (the invocation trace is exactly the index list
`[1, ..., N]`); with K the number of submissions that return False or
raise, the loop reports `queued = N - K` and `failed = K` (so
attempted = N, succeeded = N - K, failed = K), a failing track never
aborts the remainder and no track is retried. Holds for both the
playlist loop (`hp = true`) and the album loop (`hp = false`); the
progress edit is taken fault-free here, since the claim attributes all
failures to submissions (edit faults are the subject of C9). -/
theorem queueCollection_counts (hp q : Bool) (os : List SubmitOutcome) :
    (queueLoop hp q (fun _ => false) 1 os initState).submitted = idxList 1 os.length
    ∧ (queueLoop hp q (fun _ => false) 1 os initState).queued = countOk os
    ∧ (queueLoop hp q (fun _ => false) 1 os initState).failed = countBad os
    ∧ countOk os + countBad os = os.length := by
  refine ⟨?_, ?_, ?_, countOk_countBad os⟩
  · rw [queueLoop_submitted]; simp [initState]
  · rw [queueLoop_queued]; simp [initState]
  · rw [queueLoop_failed, editFaults_constFalse]; simp [initState]

/-- C2: the `tidal` command tests the substring markers in the fixed
order playlist, album, track, and the first match determines the kind —
in particular any URL containing `"playlist/"` is classified as a
playlist regardless of other markers; classification fails exactly when
no marker occurs, and in that case the command only sends the
invalid-URL message (no dispatch happens). -/
theorem classify_priority (url : List Char) :
    (substrIn playlistMarker url = true → classify url = some .playlist)
    ∧ (substrIn playlistMarker url = false → substrIn albumMarker url = true →
        classify url = some .album)
    ∧ (substrIn playlistMarker url = false → substrIn albumMarker url = false →
        substrIn trackMarker url = true → classify url = some .track)
    ∧ (classify url = none ↔
        substrIn playlistMarker url = false ∧ substrIn albumMarker url = false
          ∧ substrIn trackMarker url = false)
    ∧ (classify url = none → tidal true true true true true url = .refuse .invalidUrl) := by
  cases hp : substrIn playlistMarker url <;>
    cases ha : substrIn albumMarker url <;>
      cases ht : substrIn trackMarker url <;>
        simp [classify, tidal, hp, ha, ht]

/-- Witness for C2 at a concrete input: a URL containing all three
markers is classified as a playlist. -/
theorem classify_priority_witness :
    substrIn playlistMarker ("album/track/playlist/x".toList) = true
    ∧ classify ("album/track/playlist/x".toList) = some .playlist :=
  ⟨by decide, (classify_priority ("album/track/playlist/x".toList)).1 (by decide)⟩

/-- C3: if the OAuth future does not resolve within `oauthTimeoutSeconds`
(= 300) seconds, `tidalsetup` reports the timeout message and returns the
persisted store unchanged — the config writes happen only on the
successful-login branch, which is unreachable on timeout. -/
theorem tidalsetup_timeout_preserves_store (st : Store) (rt : Option Nat)
    (loginOk : Bool) (sc : SessionCreds)
    (h : ∀ t, rt = some t → oauthTimeoutSeconds < t) :
    tidalsetup true false rt loginOk sc st = (st, .oauthTimedOut) := by
  cases rt with
  | none => rfl
  | some t =>
    have ht := h t rfl
    simp [tidalsetup, ht]

/-- Witness for C3 at a concrete input: a flow that never resolves leaves
a fully-populated store untouched. -/
theorem tidalsetup_timeout_preserves_store_witness :
    tidalsetup true false none true
        ⟨"tt".toList, "at".toList, "rt".toList, some 2⟩
        ⟨some "t".toList, some "a".toList, some "r".toList, some 1, true⟩
      = (⟨some "t".toList, some "a".toList, some "r".toList, some 1, true⟩,
         .oauthTimedOut) :=
  tidalsetup_timeout_preserves_store _ none _ _ (fun _ ht => nomatch ht)

/-- C4 (modelled from the spec; the src revision lacks this feature):
`tidaldirect` is owner-only and persists the boolean flag
`useDirectStreaming`; when the flag is set, dispatch forwards the
original source URL unchanged to the playback subsystem, independent of
authentication, classification and batching (none of the `tidal`
pipeline's guards or stages influence the result); when clear, the
normal pipeline runs. -/
theorem direct_mode_bypass (st : DirectState) (b : Bool) (arg : Option Bool)
    (api sessionSome login audio voice : Bool) (url : List Char) :
    (tidaldirect true st (some b)).1 = ⟨b⟩
    ∧ tidaldirect true st none = (st, .directStatus st.useDirectStreaming)
    ∧ tidaldirect false st arg = (st, .notOwner)
    ∧ dispatchPlay ⟨true⟩ api sessionSome login audio voice url = .directUrl url
    ∧ dispatchPlay ⟨false⟩ api sessionSome login audio voice url
        = .batchPipeline (tidal api sessionSome login audio voice url) :=
  ⟨rfl, rfl, rfl, rfl, rfl⟩

/-- C5: when any of the stored `token_type`, `access_token`,
`refresh_token` is absent, `load_session` makes no network call (neither
`load_oauth_session` nor `check_login`) and the session stays
unauthenticated. -/
theorem load_session_incomplete_no_network (st : Store) (checkOk : Bool)
    (h : st.token_type = none ∨ st.access_token = none ∨ st.refresh_token = none) :
    load_session st checkOk = ([], .unauthenticated) := by
  rcases h with h | h | h <;> simp [load_session, h, pyTruthyStr]

/-- Witness for C5 at a concrete input: an empty credential record. -/
theorem load_session_incomplete_no_network_witness :
    load_session ⟨none, none, none, none, true⟩ true = ([], .unauthenticated) :=
  load_session_incomplete_no_network _ _ (Or.inl rfl)

/-- C6: identifier extraction uses `[A-Za-z0-9\-]+` for playlists and
`[0-9]+` for albums and tracks: the two example URLs of the spec extract
ids `abc-123` (playlist) and `98765` (track); and whenever a URL is
classified but the id pattern finds no match, the request is rejected
with the corresponding invalid-URL message. -/
theorem identifier_extraction :
    dispatchRef ("https://tidal.com/browse/playlist/abc-123".toList)
        = .ok (.playlist, "abc-123".toList)
    ∧ dispatchRef ("https://tidal.com/browse/track/98765".toList)
        = .ok (.track, "98765".toList)
    ∧ (∀ url, classify url = some .playlist →
        extractId playlistMarker playlistIdChar url = none →
        dispatchRef url = .error .invalidPlaylistUrl)
    ∧ (∀ url, classify url = some .album →
        extractId albumMarker Char.isDigit url = none →
        dispatchRef url = .error .invalidAlbumUrl)
    ∧ (∀ url, classify url = some .track →
        extractId trackMarker Char.isDigit url = none →
        dispatchRef url = .error .invalidTrackUrl) := by
  refine ⟨rfl, rfl, ?_, ?_, ?_⟩ <;> intro url h1 h2 <;> simp [dispatchRef, h1, h2]

/-- Witness for C6's rejection clauses at a concrete input: a URL whose
playlist marker is followed by no identifier character. -/
theorem identifier_extraction_witness :
    classify ("https://x/playlist/???".toList) = some .playlist
    ∧ extractId playlistMarker playlistIdChar ("https://x/playlist/???".toList) = none
    ∧ dispatchRef ("https://x/playlist/???".toList) = .error .invalidPlaylistUrl :=
  ⟨by decide, by decide,
   identifier_extraction.2.2.1 ("https://x/playlist/???".toList) (by decide) (by decide)⟩

/-- Counterexample for C7 as stated: in verbose mode the album queuer
emits no per-track progress message at all (here 0 messages over 20
successfully submitted tracks), while the playlist queuer emits one
every 10 tracks (here 2) — so progress is not emitted at a cadence "for
every collection (playlist or album) dispatch", and the playlist cadence
is the hard-coded 10, not configurable. -/
theorem album_progress_counterexample :
    (queue_album_loop false (fun _ => false) (List.replicate 20 .ok)).progress = 0
    ∧ (queue_playlist_loop false (fun _ => false) (List.replicate 20 .ok)).progress = 2 := by
  decide

/-- C7 (amended): the playlist queuer, in verbose mode, emits progress at
the fixed cadence of every 10 tracks — never more than once per submitted
track (over any outcomes and edit faults, the number of emitted progress
messages is at most the number of tracks); the album queuer emits no
per-track progress in any mode; in quiet mode the playlist queuer emits
nothing per-track either, leaving only the final batch summary. -/
theorem progress_cadence (q : Bool) (ef : Nat → Bool) (os : List SubmitOutcome) :
    (queue_album_loop q ef os).progress = 0
    ∧ (queue_playlist_loop true ef os).progress = 0
    ∧ (queue_playlist_loop q ef os).progress ≤ os.length
    ∧ (queue_playlist_loop false (fun _ => false) (List.replicate 20 .ok)).progress = 2 := by
  refine ⟨?_, ?_, ?_, by decide⟩
  · unfold queue_album_loop
    rw [queueLoop_progress, progressEmits_noProg]
    simp [initState]
  · unfold queue_playlist_loop
    rw [queueLoop_progress, progressEmits_quiet]
    simp [initState]
  · unfold queue_playlist_loop
    rw [queueLoop_progress]
    have := progressEmits_le true q ef os 1
    simp [initState]
    omega

/-- Counterexample for C8 as stated: in quiet mode a successful
single-track dispatch emits no message at all — the success message is
guarded by `if not quiet`, so success is not surfaced "in both quiet and
verbose modes". -/
theorem quiet_success_counterexample :
    queue_track true ("https://tidal.com/browse/track/98765".toList)
      (.got ⟨"Song".toList, "Artist".toList⟩) true = [] := rfl

/-- C8 (amended): for a single-track dispatch whose id extracts, the
outcome is surfaced directly per track (never as a ratio): a failed
submission produces the failure message identifying the track in both
quiet and verbose modes, while a successful submission produces the
success message identifying the track only in verbose mode — in quiet
mode a success emits nothing. -/
theorem queue_track_surfacing (q : Bool) (t : Track) (url : List Char)
    (h : (extractId trackMarker Char.isDigit url).isSome = true) :
    queue_track q url (.got t) false = [.failedTrack t.name]
    ∧ queue_track false url (.got t) true = [.successTrack t.name t.artistName]
    ∧ queue_track true url (.got t) true = [] := by
  cases he : extractId trackMarker Char.isDigit url with
  | none => rw [he] at h; simp at h
  | some v => refine ⟨?_, ?_, ?_⟩ <;> simp [queue_track, he]

/-- Witness for C8's amended theorem at a concrete input. -/
theorem queue_track_surfacing_witness :
    (extractId trackMarker Char.isDigit ("track/7".toList)).isSome = true
    ∧ queue_track true ("track/7".toList) (.got ⟨"n".toList, "a".toList⟩) true = [] :=
  ⟨by decide,
   (queue_track_surfacing true ⟨"n".toList, "a".toList⟩ ("track/7".toList) (by decide)).2.2⟩

/-- C9: in the playlist loop, `queued + failed` equals the number of
tracks plus the number of iterations whose progress edit raised, so it
equals the track count exactly when no progress edit faults; concretely,
over 10 successful submissions in verbose mode with a faulting edit, the
10th track increments both `queued` and `failed`, giving
`queued + failed = 11 > 10`. -/
theorem queued_failed_accounting :
    (∀ (q : Bool) (ef : Nat → Bool) (os : List SubmitOutcome),
      (queue_playlist_loop q ef os).queued + (queue_playlist_loop q ef os).failed
          = os.length + editFaults true q ef 1 os
      ∧ ((queue_playlist_loop q ef os).queued + (queue_playlist_loop q ef os).failed
            = os.length
          ↔ editFaults true q ef 1 os = 0))
    ∧ queue_playlist_loop false (fun _ => true) (List.replicate 10 .ok)
        = ⟨10, 1, 0, idxList 1 10⟩ := by
  refine ⟨fun q ef os => ?_, by decide⟩
  have hq := queueLoop_queued true q ef os 1 initState
  have hf := queueLoop_failed true q ef os 1 initState
  have hc := countOk_countBad os
  have h0 : initState.queued = 0 := rfl
  have h1 : initState.failed = 0 := rfl
  unfold queue_playlist_loop
  constructor
  · omega
  · omega

/-- C10: the `tidal` command checks the invoker's voice state before any
URL classification: whenever the invoker is not in a voice channel the
command refuses with an error message, the result does not depend on the
URL (so no classification, resolution or queuing happens), and when the
other guards pass the refusal is specifically the join-a-voice-channel
message. -/
theorem voice_channel_guard (api sessionSome login audio : Bool)
    (url url2 : List Char) :
    (∃ m, tidal api sessionSome login audio false url = .refuse m)
    ∧ tidal api sessionSome login audio false url
        = tidal api sessionSome login audio false url2
    ∧ tidal true true true true false url = .refuse .notInVoice := by
  cases api <;> cases sessionSome <;> cases login <;> cases audio <;>
    exact ⟨⟨_, rfl⟩, rfl, rfl⟩

end TidalPlaylist
